import Mathlib

/-!
Shallow embedding of `cmd/minikube/cmd/config/util.go` (minikube's config
command utilities): the setting applier `run`, the registry lookup
`findSetting`, the typed mutators `SetString` / `SetInt` / `SetBool`, the
client-type resolver `GetClientType`, and the add-on toggle orchestrator
`EnableOrDisableAddon` with its registry-creds credential-collection flow.

External collaborators (interactive prompts, the secret manager, the machine
API client, the cluster guard, the SSH transport, the add-on registry) are
modelled as an explicit environment record; the orchestrator returns the
trace of requests it issues together with its outcome.
-/

namespace MinikubeConfig

/-- A value stored in the configuration store: Go stores `string`, `int`
or `bool` under `map[string]interface{}`. -/
inductive ConfigValue where
  | str (s : String)
  | int (i : Int)
  | bool (b : Bool)
deriving Repr, DecidableEq

/-- The in-memory configuration store `config.MinikubeConfig`
(`map[string]interface{}`), as a partial map from names to typed values. -/
def Store : Type := String → Option ConfigValue

/-- Go map assignment `m[name] = val`. -/
def setKey (m : Store) (k : String) (v : ConfigValue) : Store :=
  fun x => if x = k then some v else m x

/-- The classification carried by Go's `strconv.NumError`:
`ErrSyntax` or `ErrRange`. -/
inductive NumErrorKind where
  | synErr
  | rangeErr
deriving Repr, DecidableEq

/-- Go's `strconv.NumError`: the failing function, the offending literal,
and the error kind. -/
structure NumError where
  fn : String
  num : String
  kind : NumErrorKind
deriving Repr, DecidableEq

/-- Go `strconv.ParseBool`: the exact lexeme switch from the Go standard
library, `1 t T TRUE true True` for true and `0 f F FALSE false False`
for false; anything else is a syntax error. -/
def parseBool (s : String) : Except NumError Bool :=
  if s = "1" ∨ s = "t" ∨ s = "T" ∨ s = "TRUE" ∨ s = "true" ∨ s = "True" then
    Except.ok true
  else if s = "0" ∨ s = "f" ∨ s = "F" ∨ s = "FALSE" ∨ s = "false" ∨ s = "False" then
    Except.ok false
  else
    Except.error ⟨"ParseBool", s, NumErrorKind.synErr⟩

/-- Accumulate base-10 digits as `strconv.ParseUint` does for base 10;
fails on the first non-digit character. -/
def digitsAux : List Char → Nat → Option Nat
  | [], acc => some acc
  | c :: cs, acc =>
    if c.isDigit then digitsAux cs (acc * 10 + (c.toNat - '0'.toNat)) else none

/-- The digit-and-range part of `strconv.ParseInt` for base 10: a
nonempty run of digits, range-checked against the signed 64-bit bounds;
`s` is the whole literal, kept for the error value. -/
def atoiCore (s : String) (neg : Bool) (ds : List Char) :
    Except NumError Int :=
  if ds.isEmpty then Except.error ⟨"Atoi", s, NumErrorKind.synErr⟩
  else
    match digitsAux ds 0 with
    | none => Except.error ⟨"Atoi", s, NumErrorKind.synErr⟩
    | some n =>
      if neg then
        if n > 2 ^ 63 then Except.error ⟨"Atoi", s, NumErrorKind.rangeErr⟩
        else Except.ok (-(n : Int))
      else
        if n ≥ 2 ^ 63 then Except.error ⟨"Atoi", s, NumErrorKind.rangeErr⟩
        else Except.ok (n : Int)

/-- Go `strconv.Atoi` (= `ParseInt(s, 10, 0)` with 64-bit `int`): optional
sign, then a nonempty run of base-10 digits. -/
def atoi (s : String) : Except NumError Int :=
  match s.data with
  | '+' :: rest => atoiCore s false rest
  | '-' :: rest => atoiCore s true rest
  | cs => atoiCore s false cs

/-- `SetString`: stores the raw string unchanged; never fails.
Returns the updated store and the returned Go error. -/
def SetString (m : Store) (name val : String) : Store × Option NumError :=
  (setKey m name (ConfigValue.str val), none)

/-- `SetInt`: `strconv.Atoi` then `m[name] = i`; on parse failure the
error is returned and the store is untouched. -/
def SetInt (m : Store) (name val : String) : Store × Option NumError :=
  match atoi val with
  | Except.ok i => (setKey m name (ConfigValue.int i), none)
  | Except.error e => (m, some e)

/-- `SetBool`: `strconv.ParseBool` then `m[name] = b`; on parse failure the
error is returned and the store is untouched. -/
def SetBool (m : Store) (name val : String) : Store × Option NumError :=
  match parseBool val with
  | Except.ok b => (setKey m name (ConfigValue.bool b), none)
  | Except.error e => (m, some e)

/-- The `setFn` callback type used by `run`: `func(string, string) error`,
with errors as their message strings. -/
def SetFn : Type := String → String → Option String

/-- The loop body of `run`: walk every function, collecting the non-nil
errors in order. -/
def collectErrs (name value : String) : List SetFn → List String
  | [] => []
  | fn :: rest =>
    match fn name value with
    | some e => e :: collectErrs name value rest
    | none => collectErrs name value rest

/-- Go `fmt` rendering of a slice's elements: space-separated. -/
def goFormatList : List String → String
  | [] => ""
  | [e] => e
  | e :: es => e ++ " " ++ goFormatList es

/-- `fmt.Errorf("%v", errors)` on a slice of errors: the elements
space-separated inside brackets. -/
def goErrorf (errs : List String) : String :=
  "[" ++ goFormatList errs ++ "]"

/-- `run`: runs all the validation or callback functions and collects
errors; nil when none failed, otherwise one combined error. -/
def run (name value : String) (fns : List SetFn) : Option String :=
  let errs := collectErrs name value fns
  if errs.isEmpty then none else some (goErrorf errs)

/-- A registered configuration setting: name, setter, validators
(the `Setting` type of the config package). -/
structure Setting where
  name : String
  set : Store → String → String → Store × Option NumError
  validations : List SetFn

/-- `findSetting`: linear scan of the settings registry for a matching
name; Go's `settings` global is passed explicitly since it is defined
outside this file. -/
def findSetting (settings : List Setting) (name : String) :
    Except String Setting :=
  match settings with
  | [] => Except.error ("Property name " ++ name ++ " not found")
  | s :: rest => if name = s.name then Except.ok s else findSetting rest name

/-- The two machine-API client types of `pkg/minikube/machine`. -/
inductive ClientType where
  | local
  | rpc
deriving Repr, DecidableEq

/-- `GetClientType`: picks the vendored (local) client when the
process-wide `useVendoredDriver` flag is set, RPC otherwise. -/
def GetClientType (useVendoredDriver : Bool) : ClientType :=
  if useVendoredDriver then ClientType.local else ClientType.rpc

/-- An add-on descriptor from the external `assets.Addons` registry
(opaque payload). -/
structure Addon where
  name : String
deriving Repr, DecidableEq

/-- One observable request issued by `EnableOrDisableAddon` to a
collaborator, in program order. -/
inductive Event where
  | askYesNo (prompt : String) (answer : Bool)
  | askValue (prompt : String) (answer : String)
  | readFile (path : String)
  | warn (msg : String)
  | createSecret (ns nm : String)
      (data : List (String × String)) (labels : List (String × String))
  | deleteSecret (ns nm : String)
  | newAPIClient
  | ensureRunning
  | loadHost
  | transferAddon (addon : Option Addon)
  | deleteAddon (addon : Option Addon)
  | closeClient
deriving Repr, DecidableEq

/-- How `EnableOrDisableAddon` ends: a returned Go error (or nil), or a
process termination (`os.Exit` inside the flow skips the deferred close). -/
inductive Outcome where
  | ret (err : Option String)
  | exited (code : Nat)
deriving Repr, DecidableEq

/-- The external collaborators, as response functions: the interactive
prompter, `ioutil.ReadFile`, `service.CreateSecret` / `DeleteSecret`
(an error message or nil), `machine.NewAPIClient`,
`cluster.EnsureMinikubeRunningOrExit` (does the guard pass),
the `assets.Addons` registry, `sshutil.NewSSHClient`, and
`sshutil.TransferAddon` / `DeleteAddon` results. -/
structure Env where
  askYesNo : String → Bool
  askValue : String → String
  readFile : String → Except String String
  createSecret : String → String →
    List (String × String) → List (String × String) → Option String
  deleteSecret : String → String → Option String
  newAPIClient : Option String
  clusterRunning : Bool
  addons : String → Option Addon
  sshNewClient : Option String
  transferResult : Option Addon → Option String
  deleteResult : Option Addon → Option String

/-- The AWS ECR prompt group: confirmation, then the four key prompts or
the `"changeme"` defaults. Returns the events and the collected values. -/
def collectECR (env : Env) : List Event × String × String × String × String :=
  let p := "\nDo you want to enable AWS Elastic Container Registry?"
  let ans := env.askYesNo p
  if ans then
    let a := env.askValue "-- Enter AWS Access Key ID: "
    let b := env.askValue "-- Enter AWS Secret Access Key: "
    let c := env.askValue "-- Enter AWS Region: "
    let d := env.askValue "-- Enter 12 digit AWS Account ID: "
    ([Event.askYesNo p true,
      Event.askValue "-- Enter AWS Access Key ID: " a,
      Event.askValue "-- Enter AWS Secret Access Key: " b,
      Event.askValue "-- Enter AWS Region: " c,
      Event.askValue "-- Enter 12 digit AWS Account ID: " d],
     a, b, c, d)
  else
    ([Event.askYesNo p false], "changeme", "changeme", "changeme", "changeme")

/-- The GCR prompt group: confirmation, then a credentials-file path; a
read failure warns and falls back to the `"changeme"` placeholder. -/
def collectGCR (env : Env) : List Event × String :=
  let p := "\nDo you want to enable Google Container Registry?"
  let pv := "-- Enter path to credentials (e.g. /home/user/.config/gcloud/application_default_credentials.json):"
  let ans := env.askYesNo p
  if ans then
    let path := env.askValue pv
    match env.readFile path with
    | Except.error _ =>
      ([Event.askYesNo p true, Event.askValue pv path, Event.readFile path,
        Event.warn "Could not read file for application_default_credentials.json"],
       "changeme")
    | Except.ok dat =>
      ([Event.askYesNo p true, Event.askValue pv path, Event.readFile path], dat)
  else
    ([Event.askYesNo p false], "changeme")

/-- The Docker private registry prompt group: confirmation, then server,
user and password, or the `"changeme"` defaults. -/
def collectDR (env : Env) : List Event × String × String × String :=
  let p := "\nDo you want to enable Docker Registry?"
  let ans := env.askYesNo p
  if ans then
    let s := env.askValue "-- Enter docker registry server url: "
    let u := env.askValue "-- Enter docker registry username: "
    let w := env.askValue "-- Enter docker registry password: "
    ([Event.askYesNo p true,
      Event.askValue "-- Enter docker registry server url: " s,
      Event.askValue "-- Enter docker registry username: " u,
      Event.askValue "-- Enter docker registry password: " w],
     s, u, w)
  else
    ([Event.askYesNo p false], "changeme", "changeme", "changeme")

/-- The fixed label set attached to each registry-creds secret. -/
def rcLabels (cloud : String) : List (String × String) :=
  [("app", "registry-creds"), ("cloud", cloud),
   ("kubernetes.io/minikube-addons", "registry-creds")]

/-- One `service.CreateSecret` call: the request event, then a printed
warning when the secret manager reports an error (the error itself is
dropped). -/
def mkCreate (env : Env) (nm : String)
    (data labels : List (String × String)) : List Event :=
  Event.createSecret "kube-system" nm data labels ::
    (match env.createSecret "kube-system" nm data labels with
     | some _ => [Event.warn ("ERROR creating `" ++ nm ++ "` secret")]
     | none => [])

/-- The `registry-creds` enable arm: the three prompt groups (yielding
`awsAccessID`, `awsAccessKey`, `awsRegion`, `awsAccount`, the GCR
credentials document, and the docker server/user/password), then the
three provider secrets (ECR, GCR, DPR) created best-effort. -/
def registryCredsEnable (env : Env) : List Event :=
  let ecr := collectECR env
  let gcr := collectGCR env
  let dr := collectDR env
  ecr.1 ++ gcr.1 ++ dr.1 ++
  mkCreate env "registry-creds-ecr"
    [("AWS_ACCESS_KEY_ID", ecr.2.1),
     ("AWS_SECRET_ACCESS_KEY", ecr.2.2.1),
     ("aws-account", ecr.2.2.2.2),
     ("aws-region", ecr.2.2.2.1)]
    (rcLabels "ecr") ++
  mkCreate env "registry-creds-gcr"
    [("application_default_credentials.json", gcr.2)]
    (rcLabels "gcr") ++
  mkCreate env "registry-creds-dpr"
    [("DOCKER_PRIVATE_REGISTRY_SERVER", dr.2.1),
     ("DOCKER_PRIVATE_REGISTRY_USER", dr.2.2.1),
     ("DOCKER_PRIVATE_REGISTRY_PASSWORD", dr.2.2.2)]
    (rcLabels "dpr")

/-- The disable arm: delete the three fixed secrets; the results of
`service.DeleteSecret` are discarded entirely. -/
def disableSecrets : List Event :=
  [Event.deleteSecret "kube-system" "registry-creds-ecr",
   Event.deleteSecret "kube-system" "registry-creds-gcr",
   Event.deleteSecret "kube-system" "registry-creds-dpr"]

/-- `transferAddonViaDriver`: open an SSH client, then transfer the
add-on payload; either failure is returned. -/
def transferAddonViaDriver (env : Env) (addon : Option Addon) :
    Option String :=
  match env.sshNewClient with
  | some e => some e
  | none => env.transferResult addon

/-- `deleteAddonViaDriver`: open an SSH client, then delete the add-on
payload; either failure is returned. -/
def deleteAddonViaDriver (env : Env) (addon : Option Addon) :
    Option String :=
  match env.sshNewClient with
  | some e => some e
  | none => env.deleteResult addon

/-- The cluster half of the toggle: acquire the API client (`os.Exit(1)`
on failure, bypassing the deferred close), run the cluster guard
(likewise fatal), look the add-on up with the error-discarding
`addon, _ := assets.Addons[name]`, load the host, and dispatch transfer
or delete, wrapping failures with the add-on name. -/
def togglePhase2 (env : Env) (name : String) (enable : Bool) :
    List Event × Outcome :=
  match env.newAPIClient with
  | some _ => ([Event.newAPIClient], Outcome.exited 1)
  | none =>
    if env.clusterRunning then
      let addon := env.addons name
      let dispatch : List Event × Option String :=
        if enable then
          ([Event.transferAddon addon],
           match transferAddonViaDriver env addon with
           | some e =>
             some ("Error transferring addon " ++ name ++ " to VM: " ++ e)
           | none => none)
        else
          ([Event.deleteAddon addon],
           match deleteAddonViaDriver env addon with
           | some e =>
             some ("Error deleting addon " ++ name ++ " from VM: " ++ e)
           | none => none)
      ([Event.newAPIClient, Event.ensureRunning, Event.loadHost] ++
         dispatch.1 ++ [Event.closeClient],
       Outcome.ret dispatch.2)
    else
      ([Event.newAPIClient, Event.ensureRunning], Outcome.exited 1)

/-- The value of `enable` after `enable, err := strconv.ParseBool(val)`:
on parse failure `enable` keeps its `false` zero value, because the
wrapped parse error built by `errors.Wrapf` is discarded. -/
def enableFlag (val : String) : Bool :=
  match parseBool val with
  | Except.ok b => b
  | Except.error _ => false

/-- `EnableOrDisableAddon`: parse the flag with `strconv.ParseBool`
(continuing past a parse failure), run the enable or disable secret
arm, then the cluster half. -/
def EnableOrDisableAddon (env : Env) (name val : String) :
    List Event × Outcome :=
  let enable := enableFlag val
  let secretEvents :=
    if enable then
      if name = "registry-creds" then registryCredsEnable env else []
    else
      disableSecrets
  (secretEvents ++ (togglePhase2 env name enable).1,
   (togglePhase2 env name enable).2)

/-- The secret-create requests of a trace, by secret name. -/
def createdNames (tr : List Event) : List String :=
  tr.filterMap fun e =>
    match e with
    | Event.createSecret _ nm _ _ => some nm
    | _ => none

/-- The secret-delete requests of a trace, by secret name. -/
def deletedNames (tr : List Event) : List String :=
  tr.filterMap fun e =>
    match e with
    | Event.deleteSecret _ nm => some nm
    | _ => none

/-- Is an event an interactive prompt (the Credential Collector)? -/
def isPrompt : Event → Bool
  | Event.askYesNo _ _ => true
  | Event.askValue _ _ => true
  | _ => false

/-- Is an event a secret-create request? -/
def isCreate : Event → Bool
  | Event.createSecret _ _ _ _ => true
  | _ => false

/-- A concrete healthy environment: every confirmation declined, every
collaborator call succeeds, and the add-on registry holds only
`dashboard`. -/
def witnessEnv : Env where
  askYesNo := fun _ => false
  askValue := fun _ => "v"
  readFile := fun _ => Except.error "no such file"
  createSecret := fun _ _ _ _ => none
  deleteSecret := fun _ _ => none
  newAPIClient := none
  clusterRunning := true
  addons := fun n => if n = "dashboard" then some ⟨"dashboard"⟩ else none
  sshNewClient := none
  transferResult := fun _ => none
  deleteResult := fun _ => none

/-- `witnessEnv` with a secret manager that rejects every creation. -/
def witnessEnvCreateFail : Env :=
  { witnessEnv with createSecret := fun _ _ _ _ => some "boom" }

/-! ### Helper lemmas -/

theorem atoiCore_error_num (s : String) (neg : Bool) (ds : List Char)
    (e : NumError) (h : atoiCore s neg ds = Except.error e) : e.num = s := by
  unfold atoiCore at h
  split at h
  · cases h; rfl
  · split at h
    · cases h; rfl
    · split at h
      · split at h
        · cases h; rfl
        · cases h
      · split at h
        · cases h; rfl
        · cases h

theorem atoi_error_num (s : String) (e : NumError)
    (h : atoi s = Except.error e) : e.num = s := by
  unfold atoi at h
  split at h <;> exact atoiCore_error_num _ _ _ _ h

theorem togglePhase2_no_secret_events (env : Env) (name : String)
    (enable : Bool) :
    createdNames (togglePhase2 env name enable).1 = [] ∧
    deletedNames (togglePhase2 env name enable).1 = [] ∧
    (togglePhase2 env name enable).1.filter isPrompt = [] ∧
    (togglePhase2 env name enable).1.filter isCreate = [] := by
  unfold togglePhase2
  cases env.newAPIClient <;>
    cases env.clusterRunning <;>
    cases enable <;>
    simp [createdNames, deletedNames, isPrompt, isCreate]

theorem mkCreate_filter_isCreate (env : Env) (nm : String)
    (data labels : List (String × String)) :
    (mkCreate env nm data labels).filter isCreate =
      [Event.createSecret "kube-system" nm data labels] := by
  unfold mkCreate
  cases env.createSecret "kube-system" nm data labels <;> simp [isCreate]

theorem mkCreate_createdNames (env : Env) (nm : String)
    (data labels : List (String × String)) :
    createdNames (mkCreate env nm data labels) = [nm] := by
  unfold mkCreate
  cases env.createSecret "kube-system" nm data labels <;> simp [createdNames]

theorem mkCreate_warn_of_failure (env : Env) (nm : String)
    (data labels : List (String × String)) (e : String)
    (h : env.createSecret "kube-system" nm data labels = some e) :
    Event.warn ("ERROR creating `" ++ nm ++ "` secret") ∈
      mkCreate env nm data labels := by
  unfold mkCreate
  rw [h]
  simp

theorem mem_mkCreate_createSecret (env : Env) (nm' : String)
    (d' l' : List (String × String)) (ns nm : String)
    (d l : List (String × String))
    (h : Event.createSecret ns nm d l ∈ mkCreate env nm' d' l') :
    ns = "kube-system" ∧ nm = nm' ∧ d = d' ∧ l = l' := by
  unfold mkCreate at h
  cases henv : env.createSecret "kube-system" nm' d' l' <;>
    rw [henv] at h <;> simp_all

theorem collectECR_events (env : Env) :
    createdNames (collectECR env).1 = [] ∧
    deletedNames (collectECR env).1 = [] ∧
    (collectECR env).1.filter isCreate = [] := by
  cases h : env.askYesNo "\nDo you want to enable AWS Elastic Container Registry?" <;>
    simp [collectECR, h, createdNames, deletedNames, isCreate]

theorem collectGCR_events (env : Env) :
    createdNames (collectGCR env).1 = [] ∧
    deletedNames (collectGCR env).1 = [] ∧
    (collectGCR env).1.filter isCreate = [] := by
  cases h : env.askYesNo "\nDo you want to enable Google Container Registry?"
  · simp [collectGCR, h, createdNames, deletedNames, isCreate]
  · cases h2 : env.readFile (env.askValue
        "-- Enter path to credentials (e.g. /home/user/.config/gcloud/application_default_credentials.json):") <;>
      simp [collectGCR, h, h2, createdNames, deletedNames, isCreate]

theorem collectDR_events (env : Env) :
    createdNames (collectDR env).1 = [] ∧
    deletedNames (collectDR env).1 = [] ∧
    (collectDR env).1.filter isCreate = [] := by
  cases h : env.askYesNo "\nDo you want to enable Docker Registry?" <;>
    simp [collectDR, h, createdNames, deletedNames, isCreate]

theorem createdNames_append (a b : List Event) :
    createdNames (a ++ b) = createdNames a ++ createdNames b := by
  simp [createdNames]

theorem deletedNames_append (a b : List Event) :
    deletedNames (a ++ b) = deletedNames a ++ deletedNames b := by
  simp [deletedNames]

theorem EnableOrDisableAddon_fst (env : Env) (name val : String) :
    (EnableOrDisableAddon env name val).1 =
      (if enableFlag val then
        if name = "registry-creds" then registryCredsEnable env else []
      else disableSecrets) ++
        (togglePhase2 env name (enableFlag val)).1 := rfl

theorem EnableOrDisableAddon_snd (env : Env) (name val : String) :
    (EnableOrDisableAddon env name val).2 =
      (togglePhase2 env name (enableFlag val)).2 := rfl

theorem togglePhase2_ret_disable (env : Env) (name msg : String)
    (h : (togglePhase2 env name false).2 = Outcome.ret (some msg)) :
    ∃ c, msg = "Error deleting addon " ++ name ++ " from VM: " ++ c := by
  rcases ha : env.newAPIClient with _ | e
  · cases hr : env.clusterRunning
    · simp [togglePhase2, ha, hr] at h
    · rcases hdel : deleteAddonViaDriver env (env.addons name) with _ | c
      · simp [togglePhase2, ha, hr, hdel] at h
      · simp [togglePhase2, ha, hr, hdel] at h
        exact ⟨c, h.symm⟩
  · simp [togglePhase2, ha] at h

theorem not_createSecret_mem_of_filter (l : List Event)
    (hf : l.filter isCreate = []) (ns nm : String)
    (d lb : List (String × String)) :
    Event.createSecret ns nm d lb ∉ l := by
  intro hm
  have hmem : Event.createSecret ns nm d lb ∈ l.filter isCreate :=
    List.mem_filter.mpr ⟨hm, rfl⟩
  rw [hf] at hmem
  simp at hmem

/-! ### Claim theorems -/

/-- C8: `SetInt` parses its raw argument with `strconv.Atoi`; on a valid
base-10 literal it stores the parsed integer under the given name and
returns nil, and on a parse failure it returns the error (which cites the
raw value) and leaves the store completely unchanged. -/
theorem setInt_spec (m : Store) (name val : String) :
    (∀ i, atoi val = Except.ok i →
      SetInt m name val = (setKey m name (ConfigValue.int i), none)) ∧
    (∀ e, atoi val = Except.error e →
      SetInt m name val = (m, some e) ∧ e.num = val) := by
  constructor
  · intro i h
    simp [SetInt, h]
  · intro e h
    exact ⟨by simp [SetInt, h], atoi_error_num val e h⟩

/-- Witness for C8: `"42"` stores the integer 42; `"4a"` returns the
syntax error citing `"4a"` and leaves the store unchanged. -/
theorem setInt_spec_witness :
    (SetInt (fun _ => none) "x" "42" =
      (setKey (fun _ => none) "x" (ConfigValue.int 42), none)) ∧
    (SetInt (fun _ => none) "x" "4a" =
      ((fun _ => none), some ⟨"Atoi", "4a", NumErrorKind.synErr⟩) ∧
      NumError.num ⟨"Atoi", "4a", NumErrorKind.synErr⟩ = "4a") :=
  ⟨(setInt_spec (fun _ => none) "x" "42").1 42 rfl,
   (setInt_spec (fun _ => none) "x" "4a").2
     ⟨"Atoi", "4a", NumErrorKind.synErr⟩ rfl⟩

/-- C7: `SetBool` accepts exactly Go's boolean lexeme set: each of the
twelve lexemes stores the corresponding boolean under the given name with
a nil error, and any other string returns the parse error and leaves the
store unchanged. -/
theorem setBool_lexemes (m : Store) (name val : String) :
    (val ∈ ["1", "t", "T", "TRUE", "true", "True"] →
      SetBool m name val = (setKey m name (ConfigValue.bool true), none)) ∧
    (val ∈ ["0", "f", "F", "FALSE", "false", "False"] →
      SetBool m name val = (setKey m name (ConfigValue.bool false), none)) ∧
    (val ∉ ["1", "t", "T", "TRUE", "true", "True",
            "0", "f", "F", "FALSE", "false", "False"] →
      SetBool m name val =
        (m, some ⟨"ParseBool", val, NumErrorKind.synErr⟩)) := by
  refine ⟨?_, ?_, ?_⟩
  · intro h
    simp only [List.mem_cons, List.not_mem_nil, or_false] at h
    rcases h with h | h | h | h | h | h <;> subst h <;> rfl
  · intro h
    simp only [List.mem_cons, List.not_mem_nil, or_false] at h
    rcases h with h | h | h | h | h | h <;> subst h <;> rfl
  · intro h
    simp only [List.mem_cons, List.not_mem_nil, or_false, not_or] at h
    obtain ⟨h1, h2, h3, h4, h5, h6, h7, h8, h9, h10, h11, h12⟩ := h
    simp [SetBool, parseBool, h1, h2, h3, h4, h5, h6, h7, h8, h9, h10,
      h11, h12]

/-- Witness for C7: `"T"` stores true, `"0"` stores false, and `"maybe"`
returns the parse error with the store unchanged. -/
theorem setBool_lexemes_witness :
    (SetBool (fun _ => none) "x" "T" =
      (setKey (fun _ => none) "x" (ConfigValue.bool true), none)) ∧
    (SetBool (fun _ => none) "x" "0" =
      (setKey (fun _ => none) "x" (ConfigValue.bool false), none)) ∧
    (SetBool (fun _ => none) "x" "maybe" =
      ((fun _ => none), some ⟨"ParseBool", "maybe", NumErrorKind.synErr⟩)) :=
  ⟨(setBool_lexemes (fun _ => none) "x" "T").1 (by simp),
   (setBool_lexemes (fun _ => none) "x" "0").2.1 (by simp),
   (setBool_lexemes (fun _ => none) "x" "maybe").2.2 (by simp)⟩

/-- C10: each typed mutator, when it succeeds, changes only the entry of
the given setting name: every other key maps to the same value as before
the call. -/
theorem mutators_frame (m : Store) (name val k : String) (hk : k ≠ name) :
    ((SetString m name val).2 = none → (SetString m name val).1 k = m k) ∧
    ((SetInt m name val).2 = none → (SetInt m name val).1 k = m k) ∧
    ((SetBool m name val).2 = none → (SetBool m name val).1 k = m k) := by
  refine ⟨?_, ?_, ?_⟩
  · intro _
    simp [SetString, setKey, hk]
  · intro _
    rcases h : atoi val with i | e <;> simp [SetInt, h, setKey, hk]
  · intro _
    rcases h : parseBool val with b | e <;> simp [SetBool, h, setKey, hk]

/-- Witness for C10: a successful `SetString`, `SetInt` and `SetBool` of
`"1"` on key `"x"` leave key `"y"` unchanged. -/
theorem mutators_frame_witness :
    ((SetString (fun _ => none) "x" "1").2 = none →
      (SetString (fun _ => none) "x" "1").1 "y" = (fun _ => none) "y") ∧
    ((SetInt (fun _ => none) "x" "1").2 = none →
      (SetInt (fun _ => none) "x" "1").1 "y" = (fun _ => none) "y") ∧
    ((SetBool (fun _ => none) "x" "1").2 = none →
      (SetBool (fun _ => none) "x" "1").1 "y" = (fun _ => none) "y") :=
  mutators_frame (fun _ => none) "x" "1" "y" (by decide)

/-- C9: `findSetting` returns the registered Setting whose name matches
(given the registry's names are unique, the spec's registry invariant),
and fails with the not-found error carrying the offending name when no
entry matches. -/
theorem findSetting_spec (settings : List Setting) (name : String) :
    (List.Pairwise (fun a b => a.name ≠ b.name) settings →
      ∀ s ∈ settings, s.name = name →
        findSetting settings name = Except.ok s) ∧
    ((∀ s ∈ settings, s.name ≠ name) →
      findSetting settings name =
        Except.error ("Property name " ++ name ++ " not found")) := by
  constructor
  · induction settings with
    | nil => intro _ s hs; simp at hs
    | cons t rest ih =>
      intro huniq s hs hname
      rcases List.mem_cons.mp hs with h | h
      · subst h
        simp [findSetting, hname]
      · have hne : name ≠ t.name := fun heq =>
          (List.pairwise_cons.mp huniq).1 s h (hname.trans heq).symm
        simp only [findSetting, if_neg hne]
        exact ih (List.pairwise_cons.mp huniq).2 s h hname
  · induction settings with
    | nil => intro _; rfl
    | cons t rest ih =>
      intro habs
      have hne : name ≠ t.name :=
        fun heq => habs t (List.mem_cons_self t rest) heq.symm
      simp only [findSetting, if_neg hne]
      exact ih fun s hs => habs s (List.mem_cons_of_mem t hs)

/-- Witness for C9: in a two-entry registry with distinct names, the
lookup of `"b"` returns the second entry; the lookup of `"zz"` returns
the not-found error naming `"zz"`. -/
theorem findSetting_spec_witness :
    (findSetting
        [⟨"a", SetString, []⟩, ⟨"b", SetString, []⟩] "b" =
      Except.ok ⟨"b", SetString, []⟩) ∧
    (findSetting
        [⟨"a", SetString, []⟩, ⟨"b", SetString, []⟩] "zz" =
      Except.error ("Property name " ++ "zz" ++ " not found")) :=
  ⟨(findSetting_spec [⟨"a", SetString, []⟩, ⟨"b", SetString, []⟩] "b").1
     (by simp)
     ⟨"b", SetString, []⟩ (by simp) rfl,
   (findSetting_spec [⟨"a", SetString, []⟩, ⟨"b", SetString, []⟩] "zz").2
     (by
       intro s hs
       rcases List.mem_cons.mp hs with rfl | hs2
       · decide
       · rcases List.mem_cons.mp hs2 with rfl | hs3
         · decide
         · simp at hs3)⟩

theorem mem_goFormatList (msg : String) (errs : List String)
    (h : msg ∈ errs) :
    ∃ p q : List Char, (goFormatList errs).data = p ++ msg.data ++ q := by
  induction errs with
  | nil => simp at h
  | cons e es ih =>
    cases es with
    | nil =>
      rcases List.mem_cons.mp h with h | h
      · subst h
        exact ⟨[], [], by simp [goFormatList]⟩
      · simp at h
    | cons e2 es2 =>
      rcases List.mem_cons.mp h with h | h
      · subst h
        refine ⟨[], (" " ++ goFormatList (e2 :: es2)).data, ?_⟩
        simp [goFormatList]
      · obtain ⟨p, q, hpq⟩ := ih h
        refine ⟨(e ++ " ").data ++ p, q, ?_⟩
        simp [goFormatList, hpq]

theorem collectErrs_eq_filterMap (name value : String) (fns : List SetFn) :
    collectErrs name value fns = fns.filterMap fun f => f name value := by
  induction fns with
  | nil => rfl
  | cons fn rest ih =>
    cases h : fn name value <;>
      simp [collectErrs, h, List.filterMap_cons, ih]

/-- C6: `run` invokes every function of `fns` (the collected failures are
exactly the non-nil results of all of them, in order), returns nil
precisely when none failed, and otherwise returns one combined error
whose text contains every individual failure message. -/
theorem run_spec (name value : String) (fns : List SetFn) :
    collectErrs name value fns = (fns.filterMap fun f => f name value) ∧
    (run name value fns = none ↔
      (fns.filterMap fun f => f name value) = []) ∧
    (∀ s, run name value fns = some s →
      ∀ msg ∈ fns.filterMap fun f => f name value,
        ∃ p q : List Char, s.data = p ++ msg.data ++ q) := by
  refine ⟨collectErrs_eq_filterMap name value fns, ?_, ?_⟩
  · rw [run, ← collectErrs_eq_filterMap]
    cases h : collectErrs name value fns <;> simp [h]
  · intro s hs msg hmsg
    rw [← collectErrs_eq_filterMap] at hmsg
    rw [run] at hs
    rcases h : collectErrs name value fns with _ | ⟨e, es⟩
    · rw [h] at hmsg
      simp at hmsg
    · rw [h] at hs
      simp only [List.isEmpty_cons, Bool.false_eq_true, if_false,
        Option.some.injEq] at hs
      obtain ⟨p, q, hpq⟩ := mem_goFormatList msg (e :: es) (h ▸ hmsg)
      refine ⟨'[' :: p, q ++ [']'], ?_⟩
      rw [← hs]
      have hlb : ("[" : String).data = ['['] := rfl
      have hrb : ("]" : String).data = [']'] := rfl
      simp [goErrorf, String.data_append, hlb, hrb, hpq,
        List.append_assoc]

/-- Witness for C6: with two failing validators, the combined error text
`"[bad1 bad2]"` contains both failure messages. -/
theorem run_spec_witness :
    (∃ p q : List Char,
      (String.data "[bad1 bad2]") = p ++ (String.data "bad1") ++ q) ∧
    (∃ p q : List Char,
      (String.data "[bad1 bad2]") = p ++ (String.data "bad2") ++ q) :=
  ⟨(run_spec "k" "v" [fun _ _ => some "bad1", fun _ _ => some "bad2"]).2.2
     "[bad1 bad2]" rfl "bad1" (by simp),
   (run_spec "k" "v" [fun _ _ => some "bad1", fun _ _ => some "bad2"]).2.2
     "[bad1 bad2]" rfl "bad2" (by simp)⟩

/-- C4: for every add-on name, the disable path of
`EnableOrDisableAddon` never invokes the Credential Collector and never
issues a secret-create request; it issues exactly the three fixed
secret-delete requests for `registry-creds-ecr`, `registry-creds-gcr`
and `registry-creds-dpr`. -/
theorem disable_path_spec (env : Env) (name val : String)
    (h : enableFlag val = false) :
    (EnableOrDisableAddon env name val).1.filter isPrompt = [] ∧
    createdNames (EnableOrDisableAddon env name val).1 = [] ∧
    deletedNames (EnableOrDisableAddon env name val).1 =
      ["registry-creds-ecr", "registry-creds-gcr", "registry-creds-dpr"] := by
  obtain ⟨hc, hd, hp, -⟩ := togglePhase2_no_secret_events env name false
  refine ⟨?_, ?_, ?_⟩
  · rw [EnableOrDisableAddon_fst, h, if_neg Bool.false_ne_true,
      List.filter_append, hp]
    simp [disableSecrets, isPrompt]
  · rw [EnableOrDisableAddon_fst, h, if_neg Bool.false_ne_true,
      createdNames_append, hc]
    simp [disableSecrets, createdNames]
  · rw [EnableOrDisableAddon_fst, h, if_neg Bool.false_ne_true,
      deletedNames_append, hd]
    simp [disableSecrets, deletedNames]

/-- Witness for C4: disabling `dashboard` issues no prompts, no creates,
and the three fixed deletes. -/
theorem disable_path_spec_witness :
    (EnableOrDisableAddon witnessEnv "dashboard" "false").1.filter
        isPrompt = [] ∧
    createdNames (EnableOrDisableAddon witnessEnv "dashboard" "false").1 =
      [] ∧
    deletedNames (EnableOrDisableAddon witnessEnv "dashboard" "false").1 =
      ["registry-creds-ecr", "registry-creds-gcr", "registry-creds-dpr"] :=
  disable_path_spec witnessEnv "dashboard" "false" (by decide)

/-- C2: a raw flag outside the boolean lexeme set does not abort the
toggle: the parse error is discarded, `enable` keeps its `false` zero
value, and the operation runs the disable branch — it deletes the three
fixed secrets, creates none, dispatches payload deletion when the
cluster half is reached, and any returned error is the wrapped deletion
error, never the parse error. -/
theorem parse_failure_runs_disable (env : Env) (name val : String)
    (hv : parseBool val =
      Except.error ⟨"ParseBool", val, NumErrorKind.synErr⟩) :
    (EnableOrDisableAddon env name val).1 =
      disableSecrets ++ (togglePhase2 env name false).1 ∧
    createdNames (EnableOrDisableAddon env name val).1 = [] ∧
    deletedNames (EnableOrDisableAddon env name val).1 =
      ["registry-creds-ecr", "registry-creds-gcr", "registry-creds-dpr"] ∧
    (env.newAPIClient = none → env.clusterRunning = true →
      Event.deleteAddon (env.addons name) ∈
        (EnableOrDisableAddon env name val).1) ∧
    (∀ msg, (EnableOrDisableAddon env name val).2 =
        Outcome.ret (some msg) →
      ∃ c, msg = "Error deleting addon " ++ name ++ " from VM: " ++ c) := by
  have hflag : enableFlag val = false := by simp [enableFlag, hv]
  obtain ⟨hc, hd, -, -⟩ := togglePhase2_no_secret_events env name false
  refine ⟨?_, ?_, ?_, ?_, ?_⟩
  · rw [EnableOrDisableAddon_fst, hflag, if_neg Bool.false_ne_true]
  · rw [EnableOrDisableAddon_fst, hflag, if_neg Bool.false_ne_true,
      createdNames_append, hc]
    simp [disableSecrets, createdNames]
  · rw [EnableOrDisableAddon_fst, hflag, if_neg Bool.false_ne_true,
      deletedNames_append, hd]
    simp [disableSecrets, deletedNames]
  · intro hapi hrun
    rw [EnableOrDisableAddon_fst, hflag, if_neg Bool.false_ne_true]
    simp [togglePhase2, hapi, hrun, disableSecrets]
  · intro msg hmsg
    rw [EnableOrDisableAddon_snd, hflag] at hmsg
    exact togglePhase2_ret_disable env name msg hmsg

/-- Witness for C2: toggling `dashboard` with the malformed flag
`"bogus"` runs the disable branch against the healthy environment. -/
theorem parse_failure_runs_disable_witness :
    (EnableOrDisableAddon witnessEnv "dashboard" "bogus").1 =
      disableSecrets ++ (togglePhase2 witnessEnv "dashboard" false).1 ∧
    createdNames (EnableOrDisableAddon witnessEnv "dashboard" "bogus").1 =
      [] ∧
    deletedNames (EnableOrDisableAddon witnessEnv "dashboard" "bogus").1 =
      ["registry-creds-ecr", "registry-creds-gcr", "registry-creds-dpr"] ∧
    (witnessEnv.newAPIClient = none → witnessEnv.clusterRunning = true →
      Event.deleteAddon (witnessEnv.addons "dashboard") ∈
        (EnableOrDisableAddon witnessEnv "dashboard" "bogus").1) ∧
    (∀ msg, (EnableOrDisableAddon witnessEnv "dashboard" "bogus").2 =
        Outcome.ret (some msg) →
      ∃ c, msg = "Error deleting addon " ++ "dashboard" ++
        " from VM: " ++ c) :=
  parse_failure_runs_disable witnessEnv "dashboard" "bogus" rfl

/-- C3: enabling `registry-creds` with every confirmation declined issues
exactly three secret-create requests — `registry-creds-ecr`,
`registry-creds-gcr`, `registry-creds-dpr`, all in namespace
`kube-system` — whose data values are all the `"changeme"` placeholder;
each carries the labels `app = "registry-creds"`, a `cloud` of
`ecr`/`gcr`/`dpr`, and the add-on marker label. -/
theorem registry_creds_decline_spec (env : Env) (val : String)
    (hv : parseBool val = Except.ok true)
    (h1 : env.askYesNo
      "\nDo you want to enable AWS Elastic Container Registry?" = false)
    (h2 : env.askYesNo
      "\nDo you want to enable Google Container Registry?" = false)
    (h3 : env.askYesNo "\nDo you want to enable Docker Registry?" = false) :
    (EnableOrDisableAddon env "registry-creds" val).1.filter isCreate =
      [Event.createSecret "kube-system" "registry-creds-ecr"
        [("AWS_ACCESS_KEY_ID", "changeme"),
         ("AWS_SECRET_ACCESS_KEY", "changeme"),
         ("aws-account", "changeme"), ("aws-region", "changeme")]
        [("app", "registry-creds"), ("cloud", "ecr"),
         ("kubernetes.io/minikube-addons", "registry-creds")],
       Event.createSecret "kube-system" "registry-creds-gcr"
        [("application_default_credentials.json", "changeme")]
        [("app", "registry-creds"), ("cloud", "gcr"),
         ("kubernetes.io/minikube-addons", "registry-creds")],
       Event.createSecret "kube-system" "registry-creds-dpr"
        [("DOCKER_PRIVATE_REGISTRY_SERVER", "changeme"),
         ("DOCKER_PRIVATE_REGISTRY_USER", "changeme"),
         ("DOCKER_PRIVATE_REGISTRY_PASSWORD", "changeme")]
        [("app", "registry-creds"), ("cloud", "dpr"),
         ("kubernetes.io/minikube-addons", "registry-creds")]] ∧
    (∀ ns nm data labels,
      Event.createSecret ns nm data labels ∈
        (EnableOrDisableAddon env "registry-creds" val).1 →
      ns = "kube-system" ∧ (∀ kv ∈ data, kv.2 = "changeme") ∧
      ("app", "registry-creds") ∈ labels ∧
      (("cloud", "ecr") ∈ labels ∨ ("cloud", "gcr") ∈ labels ∨
        ("cloud", "dpr") ∈ labels) ∧
      ("kubernetes.io/minikube-addons", "registry-creds") ∈ labels) := by
  have hflag : enableFlag val = true := by simp [enableFlag, hv]
  obtain ⟨-, -, -, hic⟩ :=
    togglePhase2_no_secret_events env "registry-creds" true
  have hfil : (EnableOrDisableAddon env "registry-creds" val).1.filter
      isCreate =
      [Event.createSecret "kube-system" "registry-creds-ecr"
        [("AWS_ACCESS_KEY_ID", "changeme"),
         ("AWS_SECRET_ACCESS_KEY", "changeme"),
         ("aws-account", "changeme"), ("aws-region", "changeme")]
        [("app", "registry-creds"), ("cloud", "ecr"),
         ("kubernetes.io/minikube-addons", "registry-creds")],
       Event.createSecret "kube-system" "registry-creds-gcr"
        [("application_default_credentials.json", "changeme")]
        [("app", "registry-creds"), ("cloud", "gcr"),
         ("kubernetes.io/minikube-addons", "registry-creds")],
       Event.createSecret "kube-system" "registry-creds-dpr"
        [("DOCKER_PRIVATE_REGISTRY_SERVER", "changeme"),
         ("DOCKER_PRIVATE_REGISTRY_USER", "changeme"),
         ("DOCKER_PRIVATE_REGISTRY_PASSWORD", "changeme")]
        [("app", "registry-creds"), ("cloud", "dpr"),
         ("kubernetes.io/minikube-addons", "registry-creds")]] := by
    rw [EnableOrDisableAddon_fst, hflag, if_pos rfl, if_pos rfl,
      List.filter_append, hic, List.append_nil]
    simp [registryCredsEnable, collectECR, collectGCR, collectDR,
      h1, h2, h3, List.filter_append, mkCreate_filter_isCreate, isCreate,
      rcLabels]
  refine ⟨hfil, ?_⟩
  intro ns nm data labels hmem
  have hc : Event.createSecret ns nm data labels ∈
      (EnableOrDisableAddon env "registry-creds" val).1.filter isCreate :=
    List.mem_filter.mpr ⟨hmem, rfl⟩
  rw [hfil] at hc
  simp only [List.mem_cons, List.not_mem_nil, or_false,
    Event.createSecret.injEq] at hc
  rcases hc with ⟨rfl, rfl, rfl, rfl⟩ | ⟨rfl, rfl, rfl, rfl⟩ |
    ⟨rfl, rfl, rfl, rfl⟩ <;>
    refine ⟨rfl, by decide, by decide, ?_, by decide⟩
  · exact Or.inl (by decide)
  · exact Or.inr (Or.inl (by decide))
  · exact Or.inr (Or.inr (by decide))

/-- Witness for C3: the healthy declining environment enabling
`registry-creds` with flag `"true"`. -/
theorem registry_creds_decline_spec_witness :
    (EnableOrDisableAddon witnessEnv "registry-creds" "true").1.filter
        isCreate =
      [Event.createSecret "kube-system" "registry-creds-ecr"
        [("AWS_ACCESS_KEY_ID", "changeme"),
         ("AWS_SECRET_ACCESS_KEY", "changeme"),
         ("aws-account", "changeme"), ("aws-region", "changeme")]
        [("app", "registry-creds"), ("cloud", "ecr"),
         ("kubernetes.io/minikube-addons", "registry-creds")],
       Event.createSecret "kube-system" "registry-creds-gcr"
        [("application_default_credentials.json", "changeme")]
        [("app", "registry-creds"), ("cloud", "gcr"),
         ("kubernetes.io/minikube-addons", "registry-creds")],
       Event.createSecret "kube-system" "registry-creds-dpr"
        [("DOCKER_PRIVATE_REGISTRY_SERVER", "changeme"),
         ("DOCKER_PRIVATE_REGISTRY_USER", "changeme"),
         ("DOCKER_PRIVATE_REGISTRY_PASSWORD", "changeme")]
        [("app", "registry-creds"), ("cloud", "dpr"),
         ("kubernetes.io/minikube-addons", "registry-creds")]] ∧
    (∀ ns nm data labels,
      Event.createSecret ns nm data labels ∈
        (EnableOrDisableAddon witnessEnv "registry-creds" "true").1 →
      ns = "kube-system" ∧ (∀ kv ∈ data, kv.2 = "changeme") ∧
      ("app", "registry-creds") ∈ labels ∧
      (("cloud", "ecr") ∈ labels ∨ ("cloud", "gcr") ∈ labels ∨
        ("cloud", "dpr") ∈ labels) ∧
      ("kubernetes.io/minikube-addons", "registry-creds") ∈ labels) :=
  registry_creds_decline_spec witnessEnv "true" rfl rfl rfl rfl

/-- C5: on the enable path for `registry-creds`, secret-create failures
are best-effort: all three creation requests are always issued, a failed
request is reported with its printed warning, and the outcome of the
toggle does not depend on the secret manager's create results at all. -/
theorem create_failure_nonfatal (env : Env) (val : String)
    (hv : parseBool val = Except.ok true) :
    createdNames (EnableOrDisableAddon env "registry-creds" val).1 =
      ["registry-creds-ecr", "registry-creds-gcr", "registry-creds-dpr"] ∧
    (∀ ns nm data labels e,
      Event.createSecret ns nm data labels ∈
        (EnableOrDisableAddon env "registry-creds" val).1 →
      env.createSecret ns nm data labels = some e →
      Event.warn ("ERROR creating `" ++ nm ++ "` secret") ∈
        (EnableOrDisableAddon env "registry-creds" val).1) ∧
    (∀ f, (EnableOrDisableAddon { env with createSecret := f }
        "registry-creds" val).2 =
      (EnableOrDisableAddon env "registry-creds" val).2) := by
  have hflag : enableFlag val = true := by simp [enableFlag, hv]
  obtain ⟨hcp, -, -, hic⟩ :=
    togglePhase2_no_secret_events env "registry-creds" true
  refine ⟨?_, ?_, ?_⟩
  · rw [EnableOrDisableAddon_fst, hflag, if_pos rfl, if_pos rfl,
      createdNames_append, hcp, List.append_nil]
    simp [registryCredsEnable, createdNames_append,
      (collectECR_events env).1, (collectGCR_events env).1,
      (collectDR_events env).1, mkCreate_createdNames]
  · intro ns nm data labels e hmem hfail
    rw [EnableOrDisableAddon_fst, hflag, if_pos rfl, if_pos rfl] at hmem ⊢
    simp only [registryCredsEnable, List.mem_append] at hmem ⊢
    rcases hmem with (((((hm | hm) | hm) | hm) | hm) | hm) | hm
    · exact absurd hm (not_createSecret_mem_of_filter _
        (collectECR_events env).2.2 ns nm data labels)
    · exact absurd hm (not_createSecret_mem_of_filter _
        (collectGCR_events env).2.2 ns nm data labels)
    · exact absurd hm (not_createSecret_mem_of_filter _
        (collectDR_events env).2.2 ns nm data labels)
    · obtain ⟨rfl, rfl, rfl, rfl⟩ :=
        mem_mkCreate_createSecret env _ _ _ ns nm data labels hm
      have hw := mkCreate_warn_of_failure env _ _ _ e hfail
      tauto
    · obtain ⟨rfl, rfl, rfl, rfl⟩ :=
        mem_mkCreate_createSecret env _ _ _ ns nm data labels hm
      have hw := mkCreate_warn_of_failure env _ _ _ e hfail
      tauto
    · obtain ⟨rfl, rfl, rfl, rfl⟩ :=
        mem_mkCreate_createSecret env _ _ _ ns nm data labels hm
      have hw := mkCreate_warn_of_failure env _ _ _ e hfail
      tauto
    · exact absurd hm (not_createSecret_mem_of_filter _
        hic ns nm data labels)
  · intro f
    rfl

/-- Witness for C5: with a secret manager rejecting every creation, the
three requests are still issued, warned about, and the outcome matches
the succeeding secret manager's. -/
theorem create_failure_nonfatal_witness :
    createdNames
        (EnableOrDisableAddon witnessEnvCreateFail "registry-creds"
          "true").1 =
      ["registry-creds-ecr", "registry-creds-gcr", "registry-creds-dpr"] ∧
    (∀ ns nm data labels e,
      Event.createSecret ns nm data labels ∈
        (EnableOrDisableAddon witnessEnvCreateFail "registry-creds"
          "true").1 →
      witnessEnvCreateFail.createSecret ns nm data labels = some e →
      Event.warn ("ERROR creating `" ++ nm ++ "` secret") ∈
        (EnableOrDisableAddon witnessEnvCreateFail "registry-creds"
          "true").1) ∧
    (∀ f, (EnableOrDisableAddon
        { witnessEnvCreateFail with createSecret := f }
        "registry-creds" "true").2 =
      (EnableOrDisableAddon witnessEnvCreateFail "registry-creds"
        "true").2) :=
  create_failure_nonfatal witnessEnvCreateFail "true" rfl

/-- C1 (divergence witness): when the add-on name is absent from the
registry, `EnableOrDisableAddon` does not fail with a not-found error —
with the parse, client, guard and transport all succeeding it dispatches
the transfer with the zero-value (`none`) descriptor and returns nil. -/
theorem missing_addon_dispatch (env : Env) (name val : String)
    (hv : parseBool val = Except.ok true)
    (hmiss : env.addons name = none)
    (hapi : env.newAPIClient = none)
    (hrun : env.clusterRunning = true)
    (hssh : env.sshNewClient = none)
    (htr : env.transferResult none = none) :
    Event.transferAddon none ∈ (EnableOrDisableAddon env name val).1 ∧
    (EnableOrDisableAddon env name val).2 = Outcome.ret none := by
  have hflag : enableFlag val = true := by simp [enableFlag, hv]
  constructor
  · rw [EnableOrDisableAddon_fst, hflag]
    refine List.mem_append.mpr (Or.inr ?_)
    simp [togglePhase2, hapi, hrun, hmiss]
  · rw [EnableOrDisableAddon_snd, hflag]
    simp [togglePhase2, hapi, hrun, hmiss, transferAddonViaDriver,
      hssh, htr]

/-- Witness for C1's divergence: enabling the unregistered add-on
`heapster` in the healthy environment transfers a `none` descriptor and
returns nil. -/
theorem missing_addon_dispatch_witness :
    Event.transferAddon none ∈
      (EnableOrDisableAddon witnessEnv "heapster" "true").1 ∧
    (EnableOrDisableAddon witnessEnv "heapster" "true").2 =
      Outcome.ret none :=
  missing_addon_dispatch witnessEnv "heapster" "true" rfl (by decide)
    rfl rfl rfl rfl

end MinikubeConfig
